import Mathlib

/-!
Verification development for the download-orchestration core (package
`downloader`, file `dispatcher.go`).

Object names are Go strings compared lexicographically; they are embedded
as an arbitrary linearly ordered type `α` (Go's byte-wise string order is
a linear order).  Job identifiers are likewise embedded as an arbitrary
type `ι` with decidable equality.

Code present in the sources (`dispatcher.go`) is embedded directly; the
Diff Resolver, jogger, throttler, task and persistent job store live in
files that are not among the sources and are modelled from the
specification where needed (each such definition carries a
`Modelled from the spec:` doc comment).
-/

namespace Downloader

variable {α ι : Type}

/-- The Diff Resolver's decision kinds, mirroring the `DiffResolver*` action
constants consumed in `dispatchDownload` (`dispatcher.go` lines 270-332):
`recv` (fetch), `skip`, `err`, `delete`, `send`, `eof` (end of stream). -/
inductive DAction where
  | recv
  | skip
  | err
  | delete
  | send
  | eof
  deriving Repr, DecidableEq

/-- A resolved decision: an action together with the object name it concerns
(`none` for end-of-stream, which carries no object). -/
structure Decision (α : Type) where
  action : DAction
  name : Option α
  deriving Repr, DecidableEq

/-- Modelled from the spec: the Diff Resolver's merge-join (`diff.go` is not
among the sources; spec §4.1).  It consumes the ascending Source sequence
(objects present locally) and the ascending Destination sequence (objects
requested from remote) and emits one ordered decision list: `d < s` (or
Source exhausted) gives `Fetch(d)`; `s < d` (or Destination exhausted in
sync mode) gives `Delete(s)`; `s == d` compares metadata — the `upToDate`
predicate — giving `Skip` when up to date and `Fetch` otherwise; once both
streams are drained it emits `EndOfStream`.  The spec leaves the non-sync
Destination-exhausted case unspecified (it asserts non-sync jobs never
populate Source); the model ends the stream there.  The recursion is
structured on Source: all Destination names below the current Source name
are fetched in one `takeWhile` block, which is the same merge order. -/
def diffResolve [LinearOrder α] (upToDate : α → Bool) (sync : Bool) :
    List α → List α → List (Decision α)
  | [], dst => dst.map (fun d => ⟨.recv, some d⟩) ++ [⟨.eof, none⟩]
  | s :: ss, dst =>
    (dst.takeWhile (fun d => decide (d < s))).map (fun d => (⟨.recv, some d⟩ : Decision α)) ++
      match dst.dropWhile (fun d => decide (d < s)) with
      | [] =>
        if sync then ⟨.delete, some s⟩ :: diffResolve upToDate sync ss []
        else [⟨.eof, none⟩]
      | d :: ds =>
        if s < d then ⟨.delete, some s⟩ :: diffResolve upToDate sync ss (d :: ds)
        else (if upToDate s then ⟨.skip, some s⟩ else ⟨.recv, some s⟩) ::
          diffResolve upToDate sync ss ds

/-- From `dispatcher.go` lines 240-249 (the `genNext` producer goroutine of
`dispatchDownload`): when the job is *not* a sync job, the producer pushes
the local metadata record (LOM) of every produced object into the Diff
Resolver's Source side ("because we need to check if it exists"); a sync
job's producer pushes nothing to Source. -/
def producerSrcPushes (sync : Bool) (objs : List α) : List α :=
  if sync then [] else objs

/-- From `dispatcher.go` lines 181-210: the bucket-walk goroutine runs only
for sync jobs and pushes the sorted, filtered local listing into the
Source side. -/
def walkSrcPushes (sync : Bool) (walkObjs : List α) : List α :=
  if sync then walkObjs else []

/-- The full Source stream seen by the Diff Resolver: the walk producer's
pushes (sync jobs) together with the `genNext` producer's pushes
(non-sync jobs). -/
def srcStream (sync : Bool) (walkObjs objs : List α) : List α :=
  walkSrcPushes sync walkObjs ++ producerSrcPushes sync objs

/-- The decision stream produced for one job: the Diff Resolver applied to
the Source stream the dispatch pipeline actually feeds it and to the
Destination stream of requested objects (`dispatcher.go` lines 173-263). -/
def pipelineDecisions [LinearOrder α] (upToDate : α → Bool) (sync : Bool)
    (walkObjs objs : List α) : List (Decision α) :=
  diffResolve upToDate sync (srcStream sync walkObjs objs) objs

/-- A job's persisted Job Store record.  The counters mirror the
`incScheduled`/`incSkipped`/`incFinished` updates and the error recording
issued by `dispatchDownload`; `aborted` mirrors `setAborted`;
`allDispatched` mirrors `setAllDispatched`.  Modelled from the spec where
the store implementation is concerned: `downloader.go`/`infostore` are not
among the sources, and the `running` flag stands for the record's
running/aborted/finished state (spec §6). -/
structure JobRecord where
  scheduled : Nat
  skipped : Nat
  finished : Nat
  errored : Nat
  aborted : Bool
  allDispatched : Bool
  running : Bool
  deriving Repr, DecidableEq

/-- The observable effect of `dispatchDownload` handling one decision:
the updated Job Store record, whether the eviction collaborator
(`EvictObject`) was invoked, whether a task was handed to the worker
dispatch path (`blockingDispatchDownloadSingle`), and whether the
`cos.Assert(job.Sync())` assertion held. -/
structure HandleEffect where
  record : JobRecord
  evictInvoked : Bool
  taskEnqueued : Bool
  syncAssertOk : Bool
  deriving Repr, DecidableEq

/-- From `dispatcher.go` lines 270-332: handling of one decision by the
consumer loop of `dispatchDownload`.  Every `recv`/`skip`/`err`/`delete`
decision first increments `scheduled`; `skip` additionally increments
`skipped`; `err` records a per-task failure (`markFailed`, whose counter
effect — incrementing `errored` — is modelled from the spec, `task.go` not
being among the sources); `delete` asserts the job is sync, invokes
eviction, and increments `finished` on success or `errored` on failure;
`send` only asserts the job is sync; `eof` sets `allDispatched`. -/
def handleDecision (sync evictOk : Bool) (dec : Decision α) (r : JobRecord) : HandleEffect :=
  match dec.action with
  | .recv => ⟨{ r with scheduled := r.scheduled + 1 }, false, true, true⟩
  | .skip => ⟨{ r with scheduled := r.scheduled + 1, skipped := r.skipped + 1 },
      false, false, true⟩
  | .err => ⟨{ r with scheduled := r.scheduled + 1, errored := r.errored + 1 },
      false, false, true⟩
  | .delete =>
    if evictOk then
      ⟨{ r with scheduled := r.scheduled + 1, finished := r.finished + 1 }, true, false, sync⟩
    else
      ⟨{ r with scheduled := r.scheduled + 1, errored := r.errored + 1 }, true, false, sync⟩
  | .send => ⟨r, false, false, sync⟩
  | .eof => ⟨{ r with allDispatched := true }, false, false, true⟩

/-- The Job Store counters of one job as observed at some instant, with
`stillQueued` counting tasks already scheduled onto a worker queue that
have not yet reached a terminal state. -/
structure StoreCounters where
  scheduled : Nat
  skipped : Nat
  finished : Nat
  errored : Nat
  stillQueued : Nat
  deriving Repr, DecidableEq

/-- One counter-affecting event in the life of a job: the dispatcher
consuming a decision (`dispatcher.go` lines 289-331) — where a fetch
decision either places its task on a jogger queue (line 396) or is cut
short, `blockingDispatchDownloadSingle` returning without an enqueue on
the job-abort and global-stop branches (lines 386-391, 398-403) or with an
error (lines 369-382), handled at lines 317-326 with no terminal counter —
or a worker ending a queued task (the jogger is not among the sources;
its reporting is modelled from the spec §4.3: success, failure, or a
queued task of an aborted job dropped and reported aborted, not failed). -/
inductive DispatchEvent where
  | decideSkip
  | decideErr
  | decideDeleteOk
  | decideDeleteFail
  | decideFetchQueued
  | decideFetchDropped
  | workerFinish
  | workerError
  | workerDropAborted
  deriving Repr, DecidableEq

/-- Counter effect of a single event.  Decision events mirror the
`incScheduled`/`incSkipped`/`incFinished`/failure-recording calls of
`dispatchDownload`: `incScheduled` (line 289) runs for every fetch
decision, but only `decideFetchQueued` actually enqueues; a
`decideFetchDropped` fetch (job abort, global stop, or a bucket-init,
placement or missing-jogger error) increments no further counter ever.
Worker events act on a queued task and are only possible while one is
queued (`none` otherwise): terminal success or failure, or the abort-drop
of spec §4.3, which removes the task from the queue with no terminal
counter. -/
def stepStore (s : StoreCounters) : DispatchEvent → Option StoreCounters
  | .decideSkip =>
    some { s with scheduled := s.scheduled + 1, skipped := s.skipped + 1 }
  | .decideErr =>
    some { s with scheduled := s.scheduled + 1, errored := s.errored + 1 }
  | .decideDeleteOk =>
    some { s with scheduled := s.scheduled + 1, finished := s.finished + 1 }
  | .decideDeleteFail =>
    some { s with scheduled := s.scheduled + 1, errored := s.errored + 1 }
  | .decideFetchQueued =>
    some { s with scheduled := s.scheduled + 1, stillQueued := s.stillQueued + 1 }
  | .decideFetchDropped =>
    some { s with scheduled := s.scheduled + 1 }
  | .workerFinish =>
    match s.stillQueued with
    | 0 => none
    | q + 1 => some { s with stillQueued := q, finished := s.finished + 1 }
  | .workerError =>
    match s.stillQueued with
    | 0 => none
    | q + 1 => some { s with stillQueued := q, errored := s.errored + 1 }
  | .workerDropAborted =>
    match s.stillQueued with
    | 0 => none
    | q + 1 => some { s with stillQueued := q }

/-- Replay a sequence of events from a starting counter state. -/
def runStore (s : StoreCounters) : List DispatchEvent → Option StoreCounters
  | [] => some s
  | e :: es =>
    match stepStore s e with
    | none => none
    | some t => runStore t es

/-- Counter state of a freshly created job record: all zero. -/
def initStore : StoreCounters :=
  ⟨0, 0, 0, 0, 0⟩

/-- The counter balance equation of spec §8: every scheduled task is
accounted for exactly once. -/
def balanced (s : StoreCounters) : Prop :=
  s.scheduled = s.skipped + s.finished + s.errored + s.stillQueued

/-- The one-sided accounting invariant the code maintains: no task is ever
double-counted, but a fetch cut short by abort or error, and a queued task
dropped as aborted, stay counted in `scheduled` without reaching any other
counter. -/
def accounted (s : StoreCounters) : Prop :=
  s.skipped + s.finished + s.errored + s.stillQueued ≤ s.scheduled

/-- Which branch of the throttle select (`dispatcher.go` lines 386-391)
fires: the throttler grants a token, or the job's abort channel is
closed. -/
inductive ThrottleBranch where
  | acquired
  | aborted
  deriving Repr, DecidableEq

/-- Which branch of the enqueue select (`dispatcher.go` lines 394-404)
fires: the jogger accepts the task, the job's abort channel is closed, or
the dispatcher's global stop channel is closed. -/
inductive EnqueueBranch where
  | queued
  | jobAborted
  | globalStopped
  deriving Repr, DecidableEq

/-- Environment of one `blockingDispatchDownloadSingle` call: which external
calls fail, which channels are ready, and — since a Go `select` picks any
ready case — which branch each select takes. -/
structure BlockingInput where
  bckInitErr : Bool
  hrwErr : Bool
  joggerExists : Bool
  throttleReady : Bool
  queueReady : Bool
  jobAbortClosed : Bool
  globalStopClosed : Bool
  throttleChoice : ThrottleBranch
  enqueueChoice : EnqueueBranch
  deriving Repr, DecidableEq

/-- Result of one `blockingDispatchDownloadSingle` call: its `(ok, err)`
return values (`hasErr` standing for `err != nil`), whether the task was
placed on a jogger queue, and whether the throttle token was released. -/
structure BlockingOutcome where
  ok : Bool
  hasErr : Bool
  enqueued : Bool
  throttleReleased : Bool
  deriving Repr, DecidableEq

/-- A Go `select` only runs a case whose channel operation is ready; this
predicate says which throttle-select branches are eligible. -/
def throttleBranchEnabled (i : BlockingInput) : ThrottleBranch → Bool
  | .acquired => i.throttleReady
  | .aborted => i.jobAbortClosed

/-- Eligibility of the enqueue-select branches. -/
def enqueueBranchEnabled (i : BlockingInput) : EnqueueBranch → Bool
  | .queued => i.queueReady
  | .jobAborted => i.jobAbortClosed
  | .globalStopped => i.globalStopClosed

/-- From `dispatcher.go` lines 368-405 (`blockingDispatchDownloadSingle`):
a bucket-init failure returns `(true, err)`; a placement (`HrwMpath`)
failure or a missing jogger for the resolved mountpath returns
`(false, err)`; then the throttle select either acquires a token or
returns `(true, nil)` on job abort; then the enqueue select either queues
the task (`(true, nil)`), or releases the token and returns `(true, nil)`
on job abort or `(false, nil)` on global stop. -/
def blockingDispatchDownloadSingle (i : BlockingInput) : BlockingOutcome :=
  if i.bckInitErr then ⟨true, true, false, false⟩
  else if i.hrwErr then ⟨false, true, false, false⟩
  else if !i.joggerExists then ⟨false, true, false, false⟩
  else
    match i.throttleChoice with
    | .aborted => ⟨true, false, false, false⟩
    | .acquired =>
      match i.enqueueChoice with
      | .queued => ⟨true, false, true, false⟩
      | .jobAborted => ⟨true, false, false, true⟩
      | .globalStopped => ⟨false, false, false, true⟩

/-- What the fetch-handling code of `dispatchDownload` does next after a
`blockingDispatchDownloadSingle` call: keep consuming decisions, or mark
the job aborted and leave the per-job pipeline with the given result. -/
inductive FetchLoopStep where
  | continueLoop
  | exitPipeline (markedAborted : Bool) (pipelineOk : Bool)
  deriving Repr, DecidableEq

/-- From `dispatcher.go` lines 317-326: a non-nil error sets the job
aborted in the store and returns `ok`; `ok == false` without an error sets
the job aborted and returns `false`; otherwise the consumer loop
continues. -/
def afterBlockingDispatch (o : BlockingOutcome) : FetchLoopStep :=
  if o.hasErr then .exitPipeline true o.ok
  else if o.ok then .continueLoop
  else .exitPipeline true false

/-- From `dispatcher.go` lines 109-115: the per-job goroutine handed to the
errgroup returns a non-nil error exactly when `dispatchDownload` returned
`false`; the errgroup cancels its context on the first such error. -/
def dispatchGoroutineErr (dispatchOk : Bool) : Bool :=
  !dispatchOk

/-- The events the `run` loop's select can wake on (`dispatcher.go` lines
81-117): idle timeout, global abort, errgroup-context cancellation, or a
newly submitted job. -/
inductive RunEvent where
  | idleTimeout
  | globalAbort
  | ctxDone
  | newJob
  deriving Repr, DecidableEq

/-- The loop's reaction: leave the loop, or dispatch the received job. -/
inductive RunReaction where
  | exitLoop
  | dispatchJob
  deriving Repr, DecidableEq

/-- The steps taken after the loop exits (`dispatcher.go` lines 120-121):
`d.stop()` stops every jogger, then `group.Wait()` waits for the in-flight
per-job pipelines. -/
inductive ShutdownStep where
  | stopAllJoggers
  | waitPipelines
  deriving Repr, DecidableEq

/-- From `dispatcher.go` lines 81-117: each select case of the `run` loop,
branch by branch — idle timeout, global abort and context cancellation all
`break Loop`; a received job is dispatched.  (The two log messages differ
in text; logging plumbing is out of the spec's scope, §1.) -/
def runSelect : RunEvent → RunReaction
  | .idleTimeout => .exitLoop
  | .globalAbort => .exitLoop
  | .ctxDone => .exitLoop
  | .newJob => .dispatchJob

/-- The complete observable behavior of `run` on one loop event: the
reaction, and the shutdown steps executed when the loop is left
(`dispatcher.go` lines 120-121). -/
def runBehavior (e : RunEvent) : RunReaction × List ShutdownStep :=
  match runSelect e with
  | .exitLoop => (.exitLoop, [.stopAllJoggers, .waitPipelines])
  | .dispatchJob => (.dispatchJob, [])

/-- Modelled from the spec: `cos.StopCh` (not among the sources) is a
one-shot broadcast channel; its one observable state is whether it has
been closed, and a receive on `Listen()` is ready exactly when it is
closed. -/
structure StopChState where
  closed : Bool
  deriving Repr, DecidableEq

/-- The dispatcher's `abortJob` registry (`jobID -> abort job chan`),
embedded as an association list from job ID to the channel's closed
flag. -/
def lookupAbort [DecidableEq ι] (m : List (ι × Bool)) (id : ι) : Option Bool :=
  (m.find? (fun p => decide (p.1 = id))).map (fun p => p.2)

/-- From `dispatcher.go` lines 336-347 (`jobAbortedCh`): return the
registered abort channel when one exists; otherwise return a freshly
created channel that is closed immediately, "always sending something if
entry in the map is missing". -/
def jobAbortedCh [DecidableEq ι] (m : List (ι × Bool)) (id : ι) : StopChState :=
  match lookupAbort m id with
  | some c => ⟨c⟩
  | none => ⟨true⟩

/-- From `dispatcher.go` lines 349-356 (`checkAbortedJob`): a select with a
`default` case on `jobAbortedCh(..).Listen()` — it reports `true` exactly
when that channel is closed. -/
def checkAbortedJob [DecidableEq ι] (m : List (ι × Bool)) (id : ι) : Bool :=
  (jobAbortedCh m id).closed

/-- From `dispatcher.go` lines 148-155 (`cleanupJob`): close the job's
abort channel if registered and remove its entry from the registry. -/
def cleanupJob [DecidableEq ι] (m : List (ι × Bool)) (id : ι) : List (ι × Bool) :=
  m.filter (fun p => decide (p.1 ≠ id))

/-- From `dispatcher.go` lines 169-171, the entry guard of
`dispatchDownload`: when the global stop channel is closed or the job
counts as aborted, return early — `some ret` with `ret = !globalStop` —
before the diff resolver or any producer is started; `none` means the
pipeline proceeds. -/
def dispatchEntry [DecidableEq ι] (globalStop : Bool) (m : List (ι × Bool)) (id : ι) :
    Option Bool :=
  if globalStop || checkAbortedJob m id then some (!globalStop) else none

/-- The persistent Job Store as seen by admin requests, embedded as an
association list from job ID to record. -/
def lookupJob [DecidableEq ι] (store : List (ι × JobRecord)) (id : ι) : Option JobRecord :=
  (store.find? (fun p => decide (p.1 = id))).map (fun p => p.2)

/-- Modelled from the spec: the store's `delJob` (spec §6, "delete-job-
record") removes the record with the given ID. -/
def delJob [DecidableEq ι] (store : List (ι × JobRecord)) (id : ι) : List (ι × JobRecord) :=
  store.filter (fun p => decide (p.1 ≠ id))

/-- Outcome of a `remove` admin request. -/
inductive RemoveResult where
  | notFound
  | stillRunning
  | removed
  deriving Repr, DecidableEq

/-- From `dispatcher.go` lines 431-446 (`handleRemove`): `checkJob` fails
for an unknown ID (nothing mutated); a record in the running state is
rejected with the "still running" error (nothing mutated); otherwise the
record is deleted and success is returned. -/
def handleRemove [DecidableEq ι] (store : List (ι × JobRecord)) (id : ι) :
    List (ι × JobRecord) × RemoveResult :=
  match lookupJob store id with
  | none => (store, .notFound)
  | some r =>
    if r.running then (store, .stillRunning)
    else (delJob store id, .removed)

/-- From `dispatcher.go` lines 464-497 (`handleStatus`): the request first
runs `checkJob`, so an ID absent from the store yields the not-found error
(`none`); otherwise the job's record is reported. -/
def handleStatus [DecidableEq ι] (store : List (ι × JobRecord)) (id : ι) : Option JobRecord :=
  lookupJob store id

/-- Feeding the Diff Resolver the same ascending stream on both sides — as
the non-sync pipeline does — turns every step into the `s == d` metadata
comparison: each object yields Skip or Fetch, then EndOfStream. -/
theorem diffResolve_self [LinearOrder α] (u : α → Bool) (sync : Bool) (l : List α) :
    diffResolve u sync l l =
      l.map (fun o => if u o then (⟨.skip, some o⟩ : Decision α) else ⟨.recv, some o⟩) ++
        [⟨.eof, none⟩] := by
  induction l with
  | nil => simp [diffResolve]
  | cons o t ih => simp [diffResolve, lt_irrefl, ih]

/-- Removing every entry with a given key from an association list makes a
subsequent lookup of that key fail. -/
theorem find?_filter_ne [DecidableEq ι] {β : Type} (l : List (ι × β)) (id : ι) :
    (l.filter (fun p => decide (p.1 ≠ id))).find? (fun p => decide (p.1 = id)) = none := by
  induction l with
  | nil => rfl
  | cons p t ih =>
    by_cases hp : p.1 = id
    · simp [List.filter_cons, hp, ih]
    · simp [List.filter_cons, List.find?_cons, hp, ih]

/-- A single counter event preserves the one-sided accounting invariant. -/
theorem stepStore_accounted {s t : StoreCounters} {e : DispatchEvent}
    (ha : accounted s) (h : stepStore s e = some t) : accounted t := by
  unfold accounted at ha ⊢
  cases e
  case decideSkip => simp [stepStore] at h; subst h; simp; omega
  case decideErr => simp [stepStore] at h; subst h; simp; omega
  case decideDeleteOk => simp [stepStore] at h; subst h; simp; omega
  case decideDeleteFail => simp [stepStore] at h; subst h; simp; omega
  case decideFetchQueued => simp [stepStore] at h; subst h; simp; omega
  case decideFetchDropped => simp [stepStore] at h; subst h; simp; omega
  case workerFinish =>
    rcases hq : s.stillQueued with _ | q
    · simp [stepStore, hq] at h
    · simp [stepStore, hq] at h; subst h; simp; omega
  case workerError =>
    rcases hq : s.stillQueued with _ | q
    · simp [stepStore, hq] at h
    · simp [stepStore, hq] at h; subst h; simp; omega
  case workerDropAborted =>
    rcases hq : s.stillQueued with _ | q
    · simp [stepStore, hq] at h
    · simp [stepStore, hq] at h; subst h; simp; omega

/-- A single counter event that is neither a cut-short fetch nor an
abort-drop preserves the balance equation. -/
theorem stepStore_balanced {s t : StoreCounters} {e : DispatchEvent}
    (hb : balanced s) (hnd : e ≠ .decideFetchDropped) (hna : e ≠ .workerDropAborted)
    (h : stepStore s e = some t) : balanced t := by
  unfold balanced at hb ⊢
  cases e
  case decideSkip => simp [stepStore] at h; subst h; simp; omega
  case decideErr => simp [stepStore] at h; subst h; simp; omega
  case decideDeleteOk => simp [stepStore] at h; subst h; simp; omega
  case decideDeleteFail => simp [stepStore] at h; subst h; simp; omega
  case decideFetchQueued => simp [stepStore] at h; subst h; simp; omega
  case decideFetchDropped => exact absurd rfl hnd
  case workerFinish =>
    rcases hq : s.stillQueued with _ | q
    · simp [stepStore, hq] at h
    · simp [stepStore, hq] at h; subst h; simp; omega
  case workerError =>
    rcases hq : s.stillQueued with _ | q
    · simp [stepStore, hq] at h
    · simp [stepStore, hq] at h; subst h; simp; omega
  case workerDropAborted => exact absurd rfl hna

/-- A single counter event never decreases any of the four persisted
counters. -/
theorem stepStore_mono {s t : StoreCounters} {e : DispatchEvent}
    (h : stepStore s e = some t) :
    s.scheduled ≤ t.scheduled ∧ s.skipped ≤ t.skipped ∧
      s.finished ≤ t.finished ∧ s.errored ≤ t.errored := by
  cases e
  case decideSkip => simp [stepStore] at h; subst h; simp
  case decideErr => simp [stepStore] at h; subst h; simp
  case decideDeleteOk => simp [stepStore] at h; subst h; simp
  case decideDeleteFail => simp [stepStore] at h; subst h; simp
  case decideFetchQueued => simp [stepStore] at h; subst h; simp
  case decideFetchDropped => simp [stepStore] at h; subst h; simp
  case workerFinish =>
    rcases hq : s.stillQueued with _ | q
    · simp [stepStore, hq] at h
    · simp [stepStore, hq] at h; subst h; simp
  case workerError =>
    rcases hq : s.stillQueued with _ | q
    · simp [stepStore, hq] at h
    · simp [stepStore, hq] at h; subst h; simp
  case workerDropAborted =>
    rcases hq : s.stillQueued with _ | q
    · simp [stepStore, hq] at h
    · simp [stepStore, hq] at h; subst h; simp

/-- Replaying events preserves the one-sided accounting invariant. -/
theorem runStore_accounted {s t : StoreCounters} {l : List DispatchEvent}
    (ha : accounted s) (h : runStore s l = some t) : accounted t := by
  induction l generalizing s with
  | nil => simp [runStore] at h; subst h; exact ha
  | cons e es ih =>
    rw [runStore] at h
    cases hs : stepStore s e with
    | none => rw [hs] at h; exact absurd h (by simp)
    | some m => rw [hs] at h; exact ih (stepStore_accounted ha hs) h

/-- Replaying a trace that contains no cut-short fetch and no abort-drop
preserves the balance equation. -/
theorem runStore_balanced {s t : StoreCounters} {l : List DispatchEvent}
    (hb : balanced s) (hnd : DispatchEvent.decideFetchDropped ∉ l)
    (hna : DispatchEvent.workerDropAborted ∉ l)
    (h : runStore s l = some t) : balanced t := by
  induction l generalizing s with
  | nil => simp [runStore] at h; subst h; exact hb
  | cons e es ih =>
    rw [runStore] at h
    cases hs : stepStore s e with
    | none => rw [hs] at h; exact absurd h (by simp)
    | some m =>
      rw [hs] at h
      exact ih
        (stepStore_balanced hb (fun he => hnd (he ▸ List.mem_cons_self e es))
          (fun he => hna (he ▸ List.mem_cons_self e es)) hs)
        (fun he => hnd (List.mem_cons_of_mem e he))
        (fun he => hna (List.mem_cons_of_mem e he)) h

/-- Replaying events never decreases any of the four persisted counters. -/
theorem runStore_mono {s t : StoreCounters} {l : List DispatchEvent}
    (h : runStore s l = some t) :
    s.scheduled ≤ t.scheduled ∧ s.skipped ≤ t.skipped ∧
      s.finished ≤ t.finished ∧ s.errored ≤ t.errored := by
  induction l generalizing s with
  | nil => simp [runStore] at h; subst h; exact ⟨le_rfl, le_rfl, le_rfl, le_rfl⟩
  | cons e es ih =>
    rw [runStore] at h
    cases hs : stepStore s e with
    | none => rw [hs] at h; exact absurd h (by simp)
    | some m =>
      rw [hs] at h
      obtain ⟨a1, a2, a3, a4⟩ := stepStore_mono hs
      obtain ⟨b1, b2, b3, b4⟩ := ih h
      exact ⟨a1.trans b1, a2.trans b2, a3.trans b3, a4.trans b4⟩

/-- Replay splits over list append. -/
theorem runStore_append (s : StoreCounters) (l1 l2 : List DispatchEvent) :
    runStore s (l1 ++ l2) =
      match runStore s l1 with
      | none => none
      | some m => runStore m l2 := by
  induction l1 generalizing s with
  | nil => simp [runStore]
  | cons e es ih =>
    rw [List.cons_append, runStore, runStore]
    cases stepStore s e
    · rfl
    · exact ih _

/-- Claim C1: for every sync-mode job whose Source stream is the ascending
sequence a, c, e and whose Destination stream is the ascending sequence
b, c, e, the Diff Resolver's successive decisions are exactly Delete(a),
Fetch(b), Skip-or-Fetch(c) per the metadata comparison, Skip-or-Fetch(e)
per the metadata comparison, and then EndOfStream, in that order. -/
theorem c1_sync_diff_sequence [LinearOrder α] (upToDate : α → Bool) (a b c e : α)
    (hab : a < b) (hbc : b < c) (_hce : c < e) :
    pipelineDecisions upToDate true [a, c, e] [b, c, e] =
      [⟨.delete, some a⟩, ⟨.recv, some b⟩,
        (if upToDate c then ⟨.skip, some c⟩ else ⟨.recv, some c⟩),
        (if upToDate e then ⟨.skip, some e⟩ else ⟨.recv, some e⟩),
        ⟨.eof, none⟩] := by
  have h1 : ¬b < a := lt_asymm hab
  have h2 : ¬c < c := lt_irrefl c
  have h3 : ¬e < e := lt_irrefl e
  simp [pipelineDecisions, srcStream, walkSrcPushes, producerSrcPushes, diffResolve,
    hab, hbc, h1, h2, h3]

/-- Claim C1 witness: the theorem applied at names 0 < 1 < 2 < 4 with a
metadata comparison that never reports up-to-date. -/
theorem c1_sync_diff_sequence_witness :
    pipelineDecisions (fun _ => false) true [0, 2, 4] ([1, 2, 4] : List Nat) =
      [⟨.delete, some 0⟩, ⟨.recv, some 1⟩, ⟨.recv, some 2⟩, ⟨.recv, some 4⟩,
        ⟨.eof, none⟩] := by
  have h := c1_sync_diff_sequence (fun _ => false) 0 1 2 4
    (by decide) (by decide) (by decide)
  simpa using h

/-- Claim C2 counterexample: for a non-sync job the dispatch pipeline does
push into the Diff Resolver's Source side — `dispatcher.go` lines 240-249
push one local metadata record per produced object — so with Destination
10, 20, 30 the Source stream receives 10, 20, 30 rather than nothing. -/
theorem c2_counterexample :
    srcStream false [] ([10, 20, 30] : List Nat) = [10, 20, 30] ∧
      srcStream false [] ([10, 20, 30] : List Nat) ≠ [] := by
  decide

/-- Claim C2 (amended): for every non-sync job the dispatch pipeline pushes
each produced object's local metadata record into the Diff Resolver's
Source side alongside the Destination entry, so a Destination stream
x, y, z yields Skip-or-Fetch(x), Skip-or-Fetch(y), Skip-or-Fetch(z) —
each per the metadata comparison — and then EndOfStream. -/
theorem c2_nonsync_passthrough [LinearOrder α] (upToDate : α → Bool)
    (walkObjs objs : List α) :
    producerSrcPushes false objs = objs ∧
    pipelineDecisions upToDate false walkObjs objs =
      objs.map (fun o =>
        if upToDate o then (⟨.skip, some o⟩ : Decision α) else ⟨.recv, some o⟩) ++
        [⟨.eof, none⟩] := by
  refine ⟨rfl, ?_⟩
  simp [pipelineDecisions, srcStream, walkSrcPushes, producerSrcPushes, diffResolve_self]

/-- Claim C3 counterexample: the code path "fetch decision, `incScheduled`
at line 289, then `blockingDispatchDownloadSingle` returns on the
job-abort branch (lines 386-391) without enqueuing, and no terminal
counter is ever incremented for that task" is one accepted event, after
which the claimed balance equality fails: scheduled is 1 while
skipped + finished + errored + stillQueued is 0. -/
theorem c3_counterexample :
    runStore initStore [.decideFetchDropped] = some ⟨1, 0, 0, 0, 0⟩ ∧
    ¬balanced ⟨1, 0, 0, 0, 0⟩ := by
  refine ⟨by decide, ?_⟩
  simp [balanced]

/-- Claim C3 (amended): along every accepted event trace from a fresh job
record, scheduled is at least skipped + finished + errored + stillQueued
(no task is double-counted, but a fetch cut short by abort or error and a
queued task dropped as aborted stay counted only in scheduled), hence
scheduled is at least finished + errored; each persisted counter is
monotonically non-decreasing along the trace; and on traces with no
cut-short fetch and no abort-drop the exact balance equality holds. -/
theorem c3_store_accounting (evs : List DispatchEvent) (s : StoreCounters)
    (h : runStore initStore evs = some s) :
    accounted s ∧
    s.finished + s.errored ≤ s.scheduled ∧
    (∀ pre suf s1, evs = pre ++ suf → runStore initStore pre = some s1 →
      s1.scheduled ≤ s.scheduled ∧ s1.skipped ≤ s.skipped ∧
        s1.finished ≤ s.finished ∧ s1.errored ≤ s.errored) ∧
    (DispatchEvent.decideFetchDropped ∉ evs →
      DispatchEvent.workerDropAborted ∉ evs → balanced s) := by
  have hacc : accounted s := runStore_accounted (by simp [accounted, initStore]) h
  refine ⟨hacc, ?_, ?_, ?_⟩
  · unfold accounted at hacc; omega
  · intro pre suf s1 hsplit h1
    subst hsplit
    rw [runStore_append, h1] at h
    exact runStore_mono h
  · intro hnd hna
    exact runStore_balanced (by simp [balanced, initStore]) hnd hna h

/-- Claim C3 witness: the amended invariant evaluated on the concrete
trace fetch-queued, skip, delete-success, worker-finish, whose final state
also satisfies the exact balance equality. -/
theorem c3_store_accounting_witness :
    accounted (⟨3, 1, 2, 0, 0⟩ : StoreCounters) ∧
    (3 : Nat) ≤ 3 ∧
    balanced (⟨3, 1, 2, 0, 0⟩ : StoreCounters) := by
  have h := c3_store_accounting
    [DispatchEvent.decideFetchQueued, .decideSkip, .decideDeleteOk, .workerFinish]
    ⟨3, 1, 2, 0, 0⟩ (by decide)
  exact ⟨h.1, by decide, h.2.2.2 (by decide) (by decide)⟩

/-- Claim C4 counterexample: handling a Skip decision does not leave the
scheduled counter unchanged — `dispatcher.go` line 289 increments
scheduled for every decision before line 292 increments skipped. -/
theorem c4_counterexample :
    (handleDecision true true (⟨.skip, some 0⟩ : Decision Nat)
        ⟨0, 0, 0, 0, false, false, true⟩).record.scheduled ≠
      (⟨0, 0, 0, 0, false, false, true⟩ : JobRecord).scheduled := by
  decide

/-- Claim C4 (amended): handling a Skip decision increments the skipped
counter and the scheduled counter of the job's record, each by one, and
leaves the finished and errored counters and every other record field
unchanged; no eviction is invoked and no task is enqueued. -/
theorem c4_skip_frame (sync evictOk : Bool) (name : Option α) (r : JobRecord) :
    (handleDecision sync evictOk ⟨.skip, name⟩ r).record.skipped = r.skipped + 1 ∧
    (handleDecision sync evictOk ⟨.skip, name⟩ r).record.scheduled = r.scheduled + 1 ∧
    (handleDecision sync evictOk ⟨.skip, name⟩ r).record.finished = r.finished ∧
    (handleDecision sync evictOk ⟨.skip, name⟩ r).record.errored = r.errored ∧
    (handleDecision sync evictOk ⟨.skip, name⟩ r).record.aborted = r.aborted ∧
    (handleDecision sync evictOk ⟨.skip, name⟩ r).record.allDispatched = r.allDispatched ∧
    (handleDecision sync evictOk ⟨.skip, name⟩ r).record.running = r.running ∧
    (handleDecision sync evictOk ⟨.skip, name⟩ r).evictInvoked = false ∧
    (handleDecision sync evictOk ⟨.skip, name⟩ r).taskEnqueued = false :=
  ⟨rfl, rfl, rfl, rfl, rfl, rfl, rfl, rfl, rfl⟩

/-- Claim C5: when the throttler cannot grant a token (the acquisition is
pending) and the owning job's abort channel is closed, the blocking
dispatch of that task returns ok with no error, no task enqueued and no
token held. -/
theorem c5_throttle_abort (i : BlockingInput)
    (h1 : i.bckInitErr = false) (h2 : i.hrwErr = false) (h3 : i.joggerExists = true)
    (h4 : i.throttleReady = false) (_h5 : i.jobAbortClosed = true)
    (h6 : throttleBranchEnabled i i.throttleChoice = true) :
    blockingDispatchDownloadSingle i = ⟨true, false, false, false⟩ := by
  have hc : i.throttleChoice = .aborted := by
    cases hch : i.throttleChoice
    · rw [hch] at h6
      rw [throttleBranchEnabled] at h6
      rw [h6] at h4
      exact absurd h4 (by simp)
    · rfl
  simp [blockingDispatchDownloadSingle, h1, h2, h3, hc]

/-- Claim C5 witness: the theorem applied to a concrete environment whose
throttler is not ready and whose job-abort channel is closed. -/
theorem c5_throttle_abort_witness :
    blockingDispatchDownloadSingle
        ⟨false, false, true, false, true, true, false, .aborted, .queued⟩ =
      ⟨true, false, false, false⟩ :=
  c5_throttle_abort _ rfl rfl rfl rfl rfl (by decide)

/-- Claim C6: a remove request for a job whose record is in the running
state fails with the still-running error and leaves the Job Store
unmodified; a remove request for a finished job deletes the record, after
which a status request for that ID reports not found. -/
theorem c6_remove_semantics [DecidableEq ι] (store : List (ι × JobRecord)) (id : ι)
    (r : JobRecord) (h : lookupJob store id = some r) :
    (r.running = true → handleRemove store id = (store, .stillRunning)) ∧
    (r.running = false →
      (handleRemove store id).2 = .removed ∧
        handleStatus (handleRemove store id).1 id = none) := by
  constructor
  · intro hr
    simp [handleRemove, h, hr]
  · intro hr
    refine ⟨by simp [handleRemove, h, hr], ?_⟩
    simp only [handleRemove, h, hr, if_false, Bool.false_eq_true]
    simp [handleStatus, lookupJob, delJob, find?_filter_ne]

/-- Claim C6 witness: a running record is rejected and a finished record is
removed, in a concrete two-job store. -/
theorem c6_remove_semantics_witness :
    ((true = true →
        handleRemove [(1, ⟨2, 0, 1, 0, false, false, true⟩),
          (2, ⟨3, 1, 2, 0, false, true, false⟩)] (1 : Nat) =
          ([(1, ⟨2, 0, 1, 0, false, false, true⟩),
            (2, ⟨3, 1, 2, 0, false, true, false⟩)], .stillRunning)) ∧
      (true = false →
        (handleRemove [(1, ⟨2, 0, 1, 0, false, false, true⟩),
          (2, ⟨3, 1, 2, 0, false, true, false⟩)] (1 : Nat)).2 = .removed ∧
          handleStatus (handleRemove [(1, ⟨2, 0, 1, 0, false, false, true⟩),
            (2, ⟨3, 1, 2, 0, false, true, false⟩)] (1 : Nat)).1 1 = none)) ∧
    (false = false →
      (handleRemove [(2, ⟨3, 1, 2, 0, false, true, false⟩)] (2 : Nat)).2 = .removed ∧
        handleStatus
          (handleRemove [(2, ⟨3, 1, 2, 0, false, true, false⟩)] (2 : Nat)).1 2 = none) :=
  ⟨c6_remove_semantics
      [(1, ⟨2, 0, 1, 0, false, false, true⟩), (2, ⟨3, 1, 2, 0, false, true, false⟩)]
      1 ⟨2, 0, 1, 0, false, false, true⟩ (by decide),
    (c6_remove_semantics [(2, ⟨3, 1, 2, 0, false, true, false⟩)]
      2 ⟨3, 1, 2, 0, false, true, false⟩ (by decide)).2⟩

/-- Claim C7 counterexample: at a placement-resolution failure the job is
marked aborted, but the per-job pipeline also returns a hard failure: the
errgroup goroutine returns an error, cancelling the shared context, and
context cancellation exits the coordination loop — the loop does not
continue unaffected. -/
theorem c7_counterexample :
    blockingDispatchDownloadSingle
        ⟨false, true, true, true, true, false, false, .acquired, .queued⟩ =
      ⟨false, true, false, false⟩ ∧
    afterBlockingDispatch ⟨false, true, false, false⟩ = .exitPipeline true false ∧
    dispatchGoroutineErr false = true ∧
    runBehavior .ctxDone = (.exitLoop, [.stopAllJoggers, .waitPipelines]) := by
  decide

/-- Claim C7 (amended): a placement-resolution failure, or the absence of a
Worker for the resolved storage path, marks that job aborted in the Job
Store, and in addition the per-job pipeline reports a hard error: its
dispatch returns false, so the errgroup goroutine returns an error that
cancels the shared context, and the coordination loop exits on context
cancellation, taking the shutdown path. -/
theorem c7_placement_failure (i : BlockingInput) (hb : i.bckInitErr = false)
    (h : i.hrwErr = true ∨ i.joggerExists = false) :
    afterBlockingDispatch (blockingDispatchDownloadSingle i) = .exitPipeline true false ∧
    dispatchGoroutineErr false = true ∧
    runBehavior .ctxDone = (.exitLoop, [.stopAllJoggers, .waitPipelines]) := by
  have ho : blockingDispatchDownloadSingle i = ⟨false, true, false, false⟩ := by
    rcases h with h | h
    · simp [blockingDispatchDownloadSingle, hb, h]
    · cases hr : i.hrwErr <;> simp [blockingDispatchDownloadSingle, hb, h, hr]
  rw [ho]
  decide

/-- Claim C7 witness: the amended theorem applied to a concrete environment
in which placement resolution fails. -/
theorem c7_placement_failure_witness :
    afterBlockingDispatch (blockingDispatchDownloadSingle
        ⟨false, true, true, true, true, false, false, .acquired, .queued⟩) =
      .exitPipeline true false ∧
    dispatchGoroutineErr false = true ∧
    runBehavior .ctxDone = (.exitLoop, [.stopAllJoggers, .waitPipelines]) :=
  c7_placement_failure _ rfl (Or.inl rfl)

/-- Claim C8: the run loop reacts to the idle timer exactly as to the
explicit global abort signal — both exit the loop and take the same
shutdown path of stopping all joggers and waiting for the in-flight
per-job pipelines. -/
theorem c8_idle_equals_abort :
    runBehavior .idleTimeout = runBehavior .globalAbort ∧
    runBehavior .idleTimeout = (.exitLoop, [.stopAllJoggers, .waitPipelines]) := by
  decide

/-- Claim C9: every Delete decision the pipeline can produce belongs to a
sync-mode job — so the sync assertion of the Delete branch holds — and
handling it invokes the eviction collaborator directly and enqueues no
task. -/
theorem c9_delete_only_sync [LinearOrder α] (upToDate : α → Bool) (sync evictOk : Bool)
    (walkObjs objs : List α) (dec : Decision α) (r : JobRecord)
    (hmem : dec ∈ pipelineDecisions upToDate sync walkObjs objs)
    (hdel : dec.action = .delete) :
    sync = true ∧
    (handleDecision sync evictOk dec r).syncAssertOk = true ∧
    (handleDecision sync evictOk dec r).evictInvoked = true ∧
    (handleDecision sync evictOk dec r).taskEnqueued = false := by
  have hs : sync = true := by
    cases hsync : sync
    · rw [hsync] at hmem
      rw [(c2_nonsync_passthrough upToDate walkObjs objs).2] at hmem
      rcases List.mem_append.1 hmem with hm | hm
      · obtain ⟨o, _, rfl⟩ := List.mem_map.1 hm
        by_cases hu : upToDate o <;> simp [hu] at hdel
      · simp at hm
        subst hm
        simp at hdel
    · rfl
  subst hs
  cases evictOk <;> simp [handleDecision, hdel]

/-- Claim C9 witness: the theorem applied to the Delete decision arising
from a sync job with local object 0 and an empty Destination. -/
theorem c9_delete_only_sync_witness :
    (true : Bool) = true ∧
    (handleDecision true true (⟨.delete, some 0⟩ : Decision Nat)
      ⟨0, 0, 0, 0, false, false, true⟩).syncAssertOk = true ∧
    (handleDecision true true (⟨.delete, some 0⟩ : Decision Nat)
      ⟨0, 0, 0, 0, false, false, true⟩).evictInvoked = true ∧
    (handleDecision true true (⟨.delete, some 0⟩ : Decision Nat)
      ⟨0, 0, 0, 0, false, false, true⟩).taskEnqueued = false :=
  c9_delete_only_sync (fun _ => false) true true [0] [] ⟨.delete, some 0⟩
    ⟨0, 0, 0, 0, false, false, true⟩ (by decide) rfl

/-- Claim C10: a job ID with no entry in the abort registry — never
registered, or already removed by cleanupJob — yields an already-closed
stop channel from jobAbortedCh, so checkAbortedJob reports it aborted and
the dispatchDownload entry guard returns early, before any task can be
dispatched for it; and an ID just cleaned up is in exactly that state. -/
theorem c10_missing_registration [DecidableEq ι] (m m2 : List (ι × Bool)) (id id2 : ι)
    (g : Bool) (h : lookupAbort m id = none) :
    (jobAbortedCh m id).closed = true ∧
    checkAbortedJob m id = true ∧
    dispatchEntry g m id = some (!g) ∧
    checkAbortedJob (cleanupJob m2 id2) id2 = true := by
  have h1 : (jobAbortedCh m id).closed = true := by
    rw [jobAbortedCh, h]
  have h2 : checkAbortedJob m id = true := h1
  have h4 : checkAbortedJob (cleanupJob m2 id2) id2 = true := by
    rw [checkAbortedJob, jobAbortedCh]
    have : lookupAbort (cleanupJob m2 id2) id2 = none := by
      rw [lookupAbort, cleanupJob, find?_filter_ne]
      rfl
    rw [this]
  refine ⟨h1, h2, ?_, h4⟩
  rw [dispatchEntry, h2]
  simp

/-- Claim C10 witness: the theorem applied to an empty registry and to a
registry holding only the entry being cleaned up. -/
theorem c10_missing_registration_witness :
    (jobAbortedCh ([] : List (Nat × Bool)) 7).closed = true ∧
    checkAbortedJob ([] : List (Nat × Bool)) 7 = true ∧
    dispatchEntry true ([] : List (Nat × Bool)) 7 = some (!true) ∧
    checkAbortedJob (cleanupJob [(3, false)] 3) 3 = true :=
  c10_missing_registration [] [(3, false)] 7 3 true rfl

end Downloader
